import Mathlib

/-!
Verification model of the Sinusbot command library (src/command.ts, v1.4.3,
the repository's current version).  JavaScript strings are modelled as Lean
strings with list-based helper functions mirroring the semantics of
`String.prototype.split(" ")`, `trim`, `toLowerCase`, `toUpperCase`.
JavaScript numbers produced by `parseFloat` on inputs matched by the
validation regex `-?\d+(\.\d+)?` are modelled as exact rationals (IEEE
rounding is abstracted; all comparisons in the claims are on small decimal
values where the two agree).  Exceptions are modelled with `Except`, and the
distinction between a value that is *returned* and an error that is *thrown*
is kept explicit, because `GroupArgument.validateAnd` returns its error
instead of throwing it.  Asynchronous permission predicates are modelled as
pure boolean predicates (they are awaited to completion before use).
`Date.now()` is passed around as an explicit integer `now` parameter.
-/

/-- Whitespace recognised by the model of JavaScript `trim` (ASCII subset;
only the plain space occurs in the claims). -/
def isWs (c : Char) : Bool :=
  c == ' ' || c == '\t' || c == '\n' || c == '\r' || c == '\x0b' || c == '\x0c'

/-- Model of JavaScript `String.prototype.trim`. -/
def jsTrim (s : String) : String :=
  String.mk (((s.data.dropWhile isWs).reverse.dropWhile isWs).reverse)

/-- Model of JavaScript `String.prototype.toLowerCase` (ASCII). -/
def jsToLower (s : String) : String :=
  String.mk (s.data.map Char.toLower)

/-- Model of JavaScript `String.prototype.toUpperCase` (ASCII). -/
def jsToUpper (s : String) : String :=
  String.mk (s.data.map Char.toUpper)

/-- Split a character list at every occurrence of `sep`, exactly like
JavaScript `split` with a one-character separator: the result is never
empty, and empty fragments are kept. -/
def splitCharList (sep : Char) : List Char → List (List Char)
  | [] => [[]]
  | c :: rest =>
    let r := splitCharList sep rest
    if c = sep then [] :: r
    else
      match r with
      | [] => [[c]]
      | g :: gs => (c :: g) :: gs

/-- Model of JavaScript `s.split(sep)` for a one-character separator. -/
def jsSplit (sep : Char) (s : String) : List String :=
  (splitCharList sep s.data).map String.mk

/-- Model of JavaScript `array.join(" ")`. -/
def joinSpace : List String → String
  | [] => ""
  | [x] => x
  | x :: xs => x ++ " " ++ joinSpace xs

/-- Source `const arg = args.split(" ").shift() || ""` together with
`argArray.join(" ")`: the first space-delimited token and the remainder. -/
def splitFirstSpace (s : String) : String × String :=
  match jsSplit ' ' s with
  | [] => ("", "")
  | x :: xs => (x, joinSpace xs)

/-- Whether a token begins with the minus sign (list-based model of
`startsWith "-"`). -/
def startsWithDash (s : String) : Bool :=
  match s.data with
  | c :: _ => c == '-'
  | [] => false

/-- Test of the number validation regex `^-?\\d+(\\.\\d+)?$`. -/
def digitsOnly (s : String) : Bool :=
  decide (0 < s.data.length) && s.data.all Char.isDigit

/-- Test of the number validation regex `^-?\d+(\.\d+)?$` on a whole token. -/
def jsNumberTest (s : String) : Bool :=
  let t := if startsWithDash s then String.mk s.data.tail else s
  match jsSplit '.' t with
  | [a] => digitsOnly a
  | [a, b] => digitsOnly a && digitsOnly b
  | _ => false

/-- Digits of a decimal numeral as a natural number. -/
def decToNat (s : String) : Nat :=
  s.data.foldl (fun n c => n * 10 + (c.toNat - 48)) 0

/-- Exact value of `parseFloat` on a token accepted by `jsNumberTest`
(IEEE rounding abstracted to an exact rational). -/
def parseDecimal (s : String) : ℚ :=
  let neg := startsWithDash s
  let t := if neg then String.mk s.data.tail else s
  let v : ℚ :=
    match jsSplit '.' t with
    | [a] => (decToNat a : ℚ)
    | [a, b] => (decToNat a : ℚ) + (decToNat b : ℚ) / ((10 : ℚ) ^ b.data.length)
    | _ => 0
  if neg then -v else v

/-- JavaScript runtime values that flow through argument validation:
`undefined`, strings, numbers, and plain objects (insertion-ordered). -/
inductive Value where
  | undefined
  | str (s : String)
  | num (q : ℚ)
  | obj (entries : List (String × Value))

/-- A JavaScript object used as a string-keyed record of `Value`s. -/
abbrev ArgMap := List (String × Value)

/-- JavaScript property assignment `record[key] = value`: an existing key is
updated in place, a new key is appended (insertion order preserved). -/
def setKey : ArgMap → String → Value → ArgMap
  | [], k, v => [(k, v)]
  | (k', v') :: rest, k, v =>
    if k' = k then (k, v) :: rest else (k', v') :: setKey rest k v

/-- The fields of the abstract `Argument` class. -/
structure ArgBase where
  opt : Bool := false
  name : String := "_"
  display : String := "_"
  displayDefault : Bool := true
  dflt : Value := .undefined

/-- Source `StringArgument` configuration (the `match` regex constraint is not
modelled; it is the last check in `validateString` and no claim uses it). -/
structure StringOpts where
  maxlen : Option Nat := none
  minlen : Option Nat := none
  whitelistWords : Option (List String) := none
  uppercase : Bool := false
  lowercase : Bool := false
deriving DecidableEq, Repr

/-- Source `NumberArgument` configuration. -/
structure NumberOpts where
  minLen : Option ℚ := none
  maxLen : Option ℚ := none
  int : Bool := false
  forcePositive : Bool := false
  forceNegative : Bool := false
deriving DecidableEq, Repr

/-- The two `GroupArgument` modes. -/
inductive GroupType where
  | or
  | and
deriving DecidableEq, Repr

/-- The `Argument` subclass family (the backend-specific `ClientArgument`
is out of scope of the claims and not modelled). -/
inductive Argument where
  | string (base : ArgBase) (opts : StringOpts)
  | rest (base : ArgBase) (opts : StringOpts)
  | number (base : ArgBase) (opts : NumberOpts)
  | group (base : ArgBase) (type : GroupType) (args : List Argument)

/-- The shared `Argument` fields of any subclass instance. -/
def Argument.base : Argument → ArgBase
  | .string b _ => b
  | .rest b _ => b
  | .number b _ => b
  | .group b _ _ => b

/-- Replace the shared `Argument` fields (models mutation of `this`). -/
def Argument.withBase : Argument → ArgBase → Argument
  | .string _ o, b => .string b o
  | .rest _ o, b => .rest b o
  | .number _ o, b => .number b o
  | .group _ t a, b => .group b t a

/-- Source `Argument#getName`. -/
def Argument.getName (a : Argument) : String := a.base.name

/-- Source `Argument#isOptional`. -/
def Argument.isOptional (a : Argument) : Bool := a.base.opt

/-- Source `Argument#getDefault`. -/
def Argument.getDefault (a : Argument) : Value := a.base.dflt

/-- Source `Argument#optional(fallback, displayDefault)`. -/
def Argument.optional (a : Argument) (fallback : Value := .undefined)
    (displayDefault : Bool := true) : Argument :=
  a.withBase { a.base with displayDefault := displayDefault, dflt := fallback, opt := true }

/-- The character class of the `setName` validation regex `^[a-z0-9_]+$/i`. -/
def nameCharOk (c : Char) : Bool :=
  c.isAlpha || c.isDigit || c == '_'

/-- Source `Argument#setName(name, display)`.  The method first overwrites the
display name, then validates `name`, then stores it; a failed validation is
modelled by returning `some errorMessage` next to the post-mutation state
(the `typeof name !== "string"` check has no counterpart on typed strings). -/
def Argument.setName (a : Argument) (nm : String) (display : Option String := none) :
    Argument × Option String :=
  let b1 := { a.base with display := display.getD nm }
  if nm.length < 1 then
    (a.withBase b1, some "Argument of setName needs to be at least 1 char long")
  else if ¬ (0 < nm.length ∧ nm.data.all nameCharOk) then
    (a.withBase b1, some "Argument of setName should contain only chars A-z, 0-9 and _")
  else
    (a.withBase { b1 with name := nm }, none)

/-- The structured content of a thrown `ParseError` message (the interpolated
message text of the source is abstracted to its data). -/
inductive ParseMsg where
  | notANumber (raw : String)
  | numberTooSmall (min got : ℚ)
  | numberTooLarge (max got : ℚ)
  | notInteger (got : ℚ)
  | notPositive (got : ℚ)
  | notNegative (got : ℚ)
  | stringTooShort (min got : Nat)
  | stringTooLong (max got : Nat)
  | notInWhitelist (word : String) (allowed : List String)
  | noValidMatch
deriving DecidableEq, Repr

/-- A `ParseError`: its message content and the `Argument` that raised it. -/
structure ParseErr where
  msg : ParseMsg
  argument : Argument

/-- The error taxonomy of the library, plus the JavaScript `TypeError` that
arises when a returned `Error` object is treated as an array.
`tooManyArguments` carries the first diagnostic `ParseError` if any (its
message text is the constant string `"Too many argument!"`); `throttleError`
carries the raw remaining-wait estimate in milliseconds (the source formats
it into a seconds string). -/
inductive JsError where
  | parse (e : ParseErr)
  | tooManyArguments (parseError : Option ParseErr)
  | permission (msg : String)
  | throttleError (waitMs : ℤ)
  | commandNotFound (msg : String)
  | typeError (site : String)

/-- Outcome of calling `Argument#validate(args)`: a returned
`[value, remainder]` pair, a thrown error, or — the `validateAnd` failure
path — an `Error` object *returned* as the result value. -/
inductive VRes where
  | ok (value : Value) (rest : String)
  | thrown (e : JsError)
  | ret (e : JsError)

/-- Source `StringArgument#validateString(arg, rest)`: case folding, then the
minimum-length, maximum-length and whitelist checks in source order. -/
def StringArgument.validateString (self : Argument) (o : StringOpts)
    (arg0 rest : String) : VRes :=
  let arg1 := if o.uppercase then jsToUpper arg0 else arg0
  let arg := if o.lowercase then jsToLower arg1 else arg1
  if o.minlen.isSome ∧ arg.length < o.minlen.getD 0 then
    .thrown (.parse ⟨.stringTooShort (o.minlen.getD 0) arg.length, self⟩)
  else if o.maxlen.isSome ∧ o.maxlen.getD 0 < arg.length then
    .thrown (.parse ⟨.stringTooLong (o.maxlen.getD 0) arg.length, self⟩)
  else if o.whitelistWords.isSome ∧ ¬ (o.whitelistWords.getD []).contains arg then
    .thrown (.parse ⟨.notInWhitelist arg (o.whitelistWords.getD []), self⟩)
  else
    .ok (.str arg) rest

/-- Source `StringArgument#validate(args)`: consume one space-delimited token. -/
def StringArgument.validate (self : Argument) (o : StringOpts) (s : String) : VRes :=
  let (arg, rest) := splitFirstSpace s
  StringArgument.validateString self o arg rest

/-- Source `RestArgument#validate(args)`: consume the entire remaining text. -/
def RestArgument.validate (self : Argument) (o : StringOpts) (s : String) : VRes :=
  StringArgument.validateString self o s ""

/-- Source `NumberArgument#validate(args)`: one token, regex test, then the
minimum, maximum, integer, positive and negative checks in source order. -/
def NumberArgument.validate (self : Argument) (o : NumberOpts) (s : String) : VRes :=
  let (arg, rest) := splitFirstSpace s
  if ¬ jsNumberTest arg then
    .thrown (.parse ⟨.notANumber arg, self⟩)
  else
    let num := parseDecimal arg
    if o.minLen.isSome ∧ num < o.minLen.getD 0 then
      .thrown (.parse ⟨.numberTooSmall (o.minLen.getD 0) num, self⟩)
    else if o.maxLen.isSome ∧ o.maxLen.getD 0 < num then
      .thrown (.parse ⟨.numberTooLarge (o.maxLen.getD 0) num, self⟩)
    else if o.int ∧ ¬ num.den = 1 then
      .thrown (.parse ⟨.notInteger num, self⟩)
    else if o.forcePositive ∧ num ≤ 0 then
      .thrown (.parse ⟨.notPositive num, self⟩)
    else if o.forceNegative ∧ 0 ≤ num then
      .thrown (.parse ⟨.notNegative num, self⟩)
    else
      .ok (.num num) rest

mutual

/-- Source `Argument#validate(args)` dispatched over the subclass family.  The
`and` mode wraps `validateAnd`, whose failure is a *returned* error. -/
def Argument.validate (a : Argument) (s : String) : VRes :=
  match a with
  | .string _ o => StringArgument.validate a o s
  | .rest _ o => RestArgument.validate a o s
  | .number _ o => NumberArgument.validate a o s
  | .group _ .or args => GroupArgument.validateOr a args s [] []
  | .group _ .and args =>
    match GroupArgument.validateAnd args s [] with
    | .inl (r, rest) => .ok (.obj r) rest
    | .inr e => .ret e

/-- Source `GroupArgument#validateOr`: children are tried in order on the same
input; the first success wins, its remainder is trimmed; if none succeeds a
`ParseError` carrying the group is thrown.  A child that *returns* an error
object makes `result[1].trim()` raise a caught `TypeError` (after storing
`undefined` under the child's name), and the scan continues. -/
def GroupArgument.validateOr (g : Argument) (children : List Argument)
    (cur : String) (resolved : ArgMap) (errors : List JsError) : VRes :=
  match children with
  | [] => .thrown (.parse ⟨.noValidMatch, g⟩)
  | a :: rest =>
    match Argument.validate a cur with
    | .ok v r => .ok (.obj (setKey resolved a.getName v)) (jsTrim r)
    | .thrown e => GroupArgument.validateOr g rest cur resolved (errors ++ [e])
    | .ret _ =>
      GroupArgument.validateOr g rest cur (setKey resolved a.getName .undefined)
        (errors ++ [.typeError "result 1 is undefined"])

/-- Source `GroupArgument#validateAnd`: children validate in order against the
progressively shrinking (trimmed) remainder; the first failure stops the
scan and the captured error is *returned* (`return error`, not `throw`).
A child that itself returned an error surfaces here as a `TypeError` from
`result[1].trim()`. -/
def GroupArgument.validateAnd (children : List Argument) (cur : String)
    (resolved : ArgMap) : (ArgMap × String) ⊕ JsError :=
  match children with
  | [] => .inl (resolved, cur)
  | a :: rest =>
    match Argument.validate a cur with
    | .ok v r => GroupArgument.validateAnd rest (jsTrim r) (setKey resolved a.getName v)
    | .thrown e => .inr e
    | .ret _ => .inr (.typeError "result 1 is undefined")

end

/-- A requesting identity; `uid` models `client.uid()`. -/
structure Client where
  uid : String
deriving DecidableEq, Repr

/-- One bucket of the `Throttle` map (`ThrottleInterface`): current points
and the timestamp of the next scheduled restoration tick.  Point and time
quantities are modelled as integers (every configuration in the spec and
claims is integral).  The stored `setTimeout` handle carries no observable
state and is not modelled. -/
structure ThrottleEntry where
  points : ℤ
  next : ℤ
deriving DecidableEq, Repr

/-- The `Throttle` class: per-identity buckets plus configuration.  The
timer callback `restorePoints` is modelled as an explicit function; the
timestamp argument `now` stands for `Date.now()`. -/
structure Throttle where
  throttled : List (String × ThrottleEntry) := []
  penalty : ℤ := 1
  initial : ℤ := 1
  restore : ℤ := 1
  tickrate : ℤ := 1000
deriving DecidableEq, Repr

/-- Lookup `this.throttled[id]`. -/
def Throttle.find (t : Throttle) (id : String) : Option ThrottleEntry :=
  (t.throttled.find? (fun p => p.1 == id)).map (fun p => p.2)

/-- JavaScript assignment `this.throttled[id] = entry` (insertion order). -/
def upsertEntry : List (String × ThrottleEntry) → String → ThrottleEntry →
    List (String × ThrottleEntry)
  | [], id, e => [(id, e)]
  | (k, v) :: rest, id, e =>
    if k == id then (k, e) :: rest else (k, v) :: upsertEntry rest id e

/-- Source `Throttle#createIdIfNotExists`: a missing bucket is created with
`initial` points and `next = 0`. -/
def Throttle.createIdIfNotExists (t : Throttle) (id : String) :
    Throttle × ThrottleEntry :=
  match t.find id with
  | some e => (t, e)
  | none =>
    let e : ThrottleEntry := ⟨t.initial, 0⟩
    ({ t with throttled := upsertEntry t.throttled id e }, e)

/-- Source `Throttle#refreshTimeout`: reschedule the restoration for `id` and set
`next = Date.now() + tickrate` (the `setTimeout` delay bug that reads the
nonexistent field `_tickrate` affects only the real timer, not `next`). -/
def Throttle.refreshTimeout (t : Throttle) (id : String) (now : ℤ) : Throttle :=
  match t.find id with
  | none => t
  | some e =>
    { t with throttled := upsertEntry t.throttled id { e with next := now + t.tickrate } }

/-- Source `Throttle#reducePoints`: subtract the penalty (creating a fresh bucket
if needed) and refresh the restoration timeout. -/
def Throttle.reducePoints (t : Throttle) (id : String) (now : ℤ) : Throttle :=
  let (t1, e) := t.createIdIfNotExists id
  let t2 := { t1 with throttled := upsertEntry t1.throttled id { e with points := e.points - t.penalty } }
  t2.refreshTimeout id now

/-- Source `Throttle#isThrottled`: an identity with no bucket is never throttled;
otherwise throttled means points at or below zero. -/
def Throttle.isThrottled (t : Throttle) (client : Client) : Bool :=
  match t.find client.uid with
  | none => false
  | some e => decide (e.points ≤ 0)

/-- Source `Throttle#timeTillNextCommand`: `0` with no bucket, otherwise
`next - Date.now()`. -/
def Throttle.timeTillNextCommand (t : Throttle) (client : Client) (now : ℤ) : ℤ :=
  match t.find client.uid with
  | none => 0
  | some e => e.next - now

/-- Source `Throttle#throttle(client)`: reduce points, then report whether the
client is now throttled. -/
def Throttle.throttle (t : Throttle) (client : Client) (now : ℤ) : Throttle × Bool :=
  let t1 := t.reducePoints client.uid now
  (t1, t1.isThrottled client)

/-- Source `Throttle#restorePoints` (the timer callback): add `restore` points;
a bucket back at or above `initial` is pruned, otherwise the timeout is
refreshed. -/
def Throttle.restorePoints (t : Throttle) (id : String) (now : ℤ) : Throttle :=
  match t.find id with
  | none => t
  | some e =>
    let e1 : ThrottleEntry := { e with points := e.points + t.restore }
    if t.initial ≤ e1.points then
      { t with throttled := t.throttled.filter (fun p => ¬ p.1 == id) }
    else
      ({ t with throttled := upsertEntry t.throttled id e1 }).refreshTimeout id now

/-- The `Command` class (with the `BaseCommand` fields).  Execution handlers
are modelled as opaque identifiers; an invocation is observed as the pair of
the handler identifier and the resolved argument record it receives.
Help, manual and prefix texts play no role in the claims. -/
structure Command where
  name : String
  availableAlias : List String := []
  enabled : Bool := true
  permissionHandler : List (Client → Bool) := []
  execHandler : List Nat := []
  throttle : Option Throttle := none
  arguments : List Argument := []

/-- Source `BaseCommand#isAllowed`: the conjunction of all permission handlers
(asynchrony flattened). -/
def Command.isAllowed (c : Command) (client : Client) : Bool :=
  c.permissionHandler.all (fun cb => cb client)

/-- Source `Command#hasPermission` simply defers to `isAllowed`. -/
def Command.hasPermission (c : Command) (client : Client) : Bool :=
  c.isAllowed client

/-- Source `BaseCommand#getCommandNames`: the name and all alias names. -/
def Command.getCommandNames (c : Command) : List String :=
  c.name :: c.availableAlias

/-- The record returned by `Command#validateArgs`. -/
structure ValidateArgsRes where
  result : ArgMap
  remaining : String
  errors : List ParseErr

/-- The `forEach` walk of `Command#validateArgs` over the argument list:
success stores the value and trims the remainder; a thrown `ParseError` on
an optional argument stores the default and keeps the remainder; any other
thrown error propagates; a *returned* error makes the array destructuring
raise a `TypeError`, which the `catch` re-throws because it is not a
`ParseError`. -/
def Command.validateArgsLoop : List Argument → String → ArgMap → List ParseErr →
    Except JsError ValidateArgsRes
  | [], cur, res, errs => .ok ⟨res, cur, errs⟩
  | a :: rest, cur, res, errs =>
    match Argument.validate a cur with
    | .ok v r => Command.validateArgsLoop rest (jsTrim r) (setKey res a.getName v) errs
    | .thrown e =>
      match e with
      | .parse pe =>
        if a.isOptional then
          Command.validateArgsLoop rest cur (setKey res a.getName a.getDefault) (errs ++ [pe])
        else .error (.parse pe)
      | _ => .error e
    | .ret _ => .error (.typeError "validate result is not iterable")

/-- Source `Command#validateArgs(args)`: trim the input and walk the arguments. -/
def Command.validateArgs (c : Command) (s : String) : Except JsError ValidateArgsRes :=
  Command.validateArgsLoop c.arguments (jsTrim s) [] []

/-- Source `Command#validate(args)`: `TooManyArgumentsError` (carrying
`errors.shift()`) when text remains, otherwise the resolved record. -/
def Command.validate (c : Command) (s : String) : Except JsError ArgMap :=
  match c.validateArgs s with
  | .error e => .error e
  | .ok r =>
    if 0 < r.remaining.length then .error (.tooManyArguments r.errors.head?)
    else .ok r.result

/-- Source `BaseCommand#handleThrottle`: nothing without an attached throttle;
an already-throttled client raises `ThrottleError` carrying the remaining
wait estimate (without deducting); otherwise one penalty is deducted. -/
def Command.handleThrottle (c : Command) (client : Client) (now : ℤ) :
    Except JsError Command :=
  match c.throttle with
  | none => .ok c
  | some t =>
    if t.isThrottled client then
      .error (.throttleError (t.timeTillNextCommand client now))
    else
      .ok { c with throttle := some (t.throttle client now).1 }

/-- Source `BaseCommand#dispatchCommand`: permission check, then throttle, then
every execution handler is invoked with the resolved arguments. -/
def Command.dispatchCommand (c : Command) (client : Client) (now : ℤ) (args : ArgMap) :
    Except JsError (Command × List (Nat × ArgMap)) :=
  if c.hasPermission client then
    match c.handleThrottle client now with
    | .error e => .error e
    | .ok c1 => .ok (c1, c1.execHandler.map (fun h => (h, args)))
  else .error (.permission "no permission to execute this command")

/-- Source `Command#dispatch(args, ev)`: the argument object passed to
`dispatchCommand` evaluates `this.validate(args)` first, so validation
errors surface before the permission check inside `dispatchCommand`. -/
def Command.dispatch (c : Command) (s : String) (client : Client) (now : ℤ) :
    Except JsError (Command × List (Nat × ArgMap)) :=
  match c.validate s with
  | .error e => .error e
  | .ok m => c.dispatchCommand client now m

/-- The `CommandGroup` class: the `BaseCommand` fields plus child commands
(children are registered through `addCommand`, which lowercases names). -/
structure CommandGroup where
  name : String
  availableAlias : List String := []
  enabled : Bool := true
  permissionHandler : List (Client → Bool) := []
  execHandler : List Nat := []
  throttle : Option Throttle := none
  commands : List Command := []

/-- Source `BaseCommand#isAllowed` for a group. -/
def CommandGroup.isAllowed (g : CommandGroup) (client : Client) : Bool :=
  g.permissionHandler.all (fun cb => cb client)

/-- Source `CommandGroup#hasPermission`: its own predicates must pass; an own
execution handler suffices; otherwise at least one child must be allowed. -/
def CommandGroup.hasPermission (g : CommandGroup) (client : Client) : Bool :=
  g.isAllowed client &&
    (decide (0 < g.execHandler.length) || g.commands.any (fun c => c.hasPermission client))

/-- Source `CommandGroup#findCommandByName`: lowercase the token; an empty token
and an unmatched token both raise `CommandNotFoundError`. -/
def CommandGroup.findCommandByName (g : CommandGroup) (nm : String) :
    Except JsError Command :=
  let nm := jsToLower nm
  if nm.length = 0 then .error (.commandNotFound "no subcommand specified")
  else
    match g.commands.find? (fun c => c.getCommandNames.contains nm) with
    | none => .error (.commandNotFound "subcommand not found")
    | some c => .ok c

/-- Source `BaseCommand#handleThrottle` for a group. -/
def CommandGroup.handleThrottle (g : CommandGroup) (client : Client) (now : ℤ) :
    Except JsError CommandGroup :=
  match g.throttle with
  | none => .ok g
  | some t =>
    if t.isThrottled client then
      .error (.throttleError (t.timeTillNextCommand client now))
    else
      .ok { g with throttle := some (t.throttle client now).1 }

/-- Source `BaseCommand#dispatchCommand` for a group (uses the group's own
`hasPermission` override). -/
def CommandGroup.dispatchCommand (g : CommandGroup) (client : Client) (now : ℤ)
    (args : ArgMap) : Except JsError (CommandGroup × List (Nat × ArgMap)) :=
  if g.hasPermission client then
    match g.handleThrottle client now with
    | .error e => .error e
    | .ok g1 => .ok (g1, g1.execHandler.map (fun h => (h, args)))
  else .error (.permission "no permission to execute this command")

/-- In-place mutation of the first child command matching `nm` (the child
object dispatched by the group is held by reference in `commands`). -/
def updateFirstCommand : List Command → String → Command → List Command
  | [], _, _ => []
  | c :: rest, nm, c1 =>
    if c.getCommandNames.contains nm then c1 :: rest
    else c :: updateFirstCommand rest nm c1

/-- Source `CommandGroup#dispatch(args, ev)`: split off the first space-delimited
token; check the group's permission; an empty token dispatches the group's
own handler set with an empty argument record (whether or not any handler
exists); a non-empty token is resolved among the children and that child's
`dispatch` runs on the remaining text. -/
def CommandGroup.dispatch (g : CommandGroup) (s : String) (client : Client) (now : ℤ) :
    Except JsError (CommandGroup × List (Nat × ArgMap)) :=
  let (cmd, rest) := splitFirstSpace s
  if g.hasPermission client then
    if cmd.length = 0 then g.dispatchCommand client now []
    else
      match g.findCommandByName cmd with
      | .error e => .error e
      | .ok c =>
        match c.dispatch rest client now with
        | .error e => .error e
        | .ok (c1, inv) =>
          .ok ({ g with commands := updateFirstCommand g.commands (jsToLower cmd) c1 }, inv)
  else .error (.permission "not enough permission to execute this command")

/-- Scenario A argument: `number` Argument `amount`, minimum 1, maximum 10,
optional with default 1. -/
def amountArg : Argument :=
  .number { opt := true, name := "amount", display := "amount", dflt := Value.num 1 }
    { minLen := some 1, maxLen := some 10 }

/-- Scenario A command: `ping` with the single `amount` argument and one
execution handler. -/
def pingCmd : Command :=
  { name := "ping", execHandler := [0], arguments := [amountArg] }


/-- Requesting identity used in the Scenario A checks. -/
def pingClient : Client := ⟨"ping-user"⟩

/-- Required number argument of the dispatch-order scenario. -/
def c2Arg : Argument := .number { name := "num", display := "num" } {}

/-- A disabled command whose permission predicate always denies, with one
required number argument: used to observe the order of dispatch steps. -/
def c2Cmd : Command :=
  { name := "test", enabled := false, permissionHandler := [fun _ => false],
    execHandler := [0], arguments := [c2Arg] }

/-- Requesting identity of the dispatch-order scenario. -/
def c2Client : Client := ⟨"nobody"⟩

/-- A permitted command with empty argument list, exercising the
permission-failure branch of the dispatch-order characterization. -/
def c2CmdDenied : Command :=
  { name := "noperm", permissionHandler := [fun _ => false], execHandler := [1] }

/-- Number child (minimum 1) of the AND-group scenario. -/
def c3Child : Argument := .number { name := "n", display := "n" } { minLen := some 1 }

/-- String child of the two-child AND-group success scenario. -/
def c3Child2 : Argument := .string { name := "s", display := "s" } {}

/-- An optional AND-GroupArgument with a single number child. -/
def c3Group : Argument :=
  .group { opt := true, name := "g", display := "g", dflt := Value.num 0 } .and [c3Child]

/-- An AND-GroupArgument with a number child followed by a string child. -/
def c3Group2 : Argument :=
  .group { name := "g2", display := "g2" } .and [c3Child, c3Child2]

/-- A command whose only argument is the optional AND group. -/
def c3Cmd : Command := { name := "grp", execHandler := [0], arguments := [c3Group] }

/-- Throttle with a single initial point: the first deduction empties the
bucket. -/
def c4Throttle : Throttle := { initial := 1, penalty := 1 }

/-- A command carrying `c4Throttle`. -/
def c4Cmd : Command := { name := "limited", execHandler := [7], throttle := some c4Throttle }

/-- Requesting identity of the throttle-deduction scenario. -/
def c4Client : Client := ⟨"c4-user"⟩

/-- Scenario D throttle: `initialPoints = 3`, `penaltyPerUse = 1`. -/
def c5Throttle : Throttle := { initial := 3, penalty := 1 }

/-- Requesting identity of Scenario D. -/
def c5Client : Client := ⟨"u"⟩

/-- Scenario D throttle state after the first use (at time 0). -/
def c5After1 : Throttle := (c5Throttle.throttle c5Client 0).1

/-- Scenario D throttle state after the second use. -/
def c5After2 : Throttle := (c5After1.throttle c5Client 0).1

/-- Scenario D throttle state after the third use. -/
def c5After3 : Throttle := (c5After2.throttle c5Client 0).1

/-- A command carrying the Scenario D throttle after three uses. -/
def c5Cmd : Command := { name := "limited", execHandler := [3], throttle := some c5After3 }

/-- A command with no declared arguments, used to exhibit leftover text. -/
def c6Cmd : Command := { name := "bare", execHandler := [0] }

/-- Optional number argument (default 9) whose parse failure must not abort
validation. -/
def c7Arg : Argument :=
  .number { opt := true, name := "n", display := "n", dflt := Value.num 9 } {}

/-- The diagnostic `ParseError` recorded when `c7Arg` rejects `"abc"`. -/
def c7Err : ParseErr := ⟨.notANumber "abc", c7Arg⟩

/-- Number argument `amount` (minimum 1) of the CommandGroup scenario. -/
def c8AmountArg : Argument := .number { name := "amount", display := "amount" } { minLen := some 1 }

/-- Child command `add` of the CommandGroup scenario. -/
def addCmd : Command := { name := "add", execHandler := [1], arguments := [c8AmountArg] }

/-- Child command `remove` of the CommandGroup scenario. -/
def removeCmd : Command := { name := "remove", execHandler := [2], arguments := [c8AmountArg] }

/-- CommandGroup `money` with children `add` and `remove` and no group-level
execution handler. -/
def moneyGroup : CommandGroup := { name := "money", commands := [addCmd, removeCmd] }

/-- The `money` group with a group-level execution handler attached. -/
def moneyGroupWithHandler : CommandGroup := { moneyGroup with execHandler := [9] }

/-- Requesting identity of the CommandGroup scenario. -/
def c8Client : Client := ⟨"c8-user"⟩

/-- Throttle used for the `timeUntilAvailable` scenario. -/
def c9Throttle : Throttle := { initial := 3, penalty := 1 }

/-- Requesting identity of the `timeUntilAvailable` scenario. -/
def c9Client : Client := ⟨"c9-user"⟩

/-- The scenario throttle after a single use at time 0: the bucket holds 2
points, so the identity is not throttled, but `next` is 1000. -/
def c9After1 : Throttle := (c9Throttle.throttle c9Client 0).1

/-- A concrete string argument used to exercise `setName`. -/
def c10Arg : Argument := .string { name := "old", display := "olddisplay" } {}

/-- Replacing the shared fields of an argument and projecting them back
yields the replacement. -/
theorem Argument.base_withBase (a : Argument) (b : ArgBase) : (a.withBase b).base = b := by
  cases a <;> rfl

/-- Claim C1 (amended): for the `ping` command with its optional `amount`
argument (minimum 1, maximum 10, default 1), input `""` resolves to
`amount = 1` and `"5"` to `amount = 5`; but on input `"11"` the optional
argument falls back to its default while consuming nothing, so the text
`"11"` is left over and `validate` raises `TooManyArgumentsError` carrying
the recorded range `ParseError` — it does not succeed. -/
theorem C1_ping_validation :
    pingCmd.validate "" = .ok [("amount", Value.num 1)] ∧
    pingCmd.validate "5" = .ok [("amount", Value.num 5)] ∧
    pingCmd.validate "11" =
      .error (.tooManyArguments (some ⟨.numberTooLarge 10 11, amountArg⟩)) :=
  ⟨rfl, rfl, rfl⟩

/-- Claim C1 counterexample: dispatching the `ping` command on input `"11"`
raises `TooManyArgumentsError` instead of succeeding with `amount = 1` as
the claim states. -/
theorem C1_dispatch_11_fails :
    pingCmd.dispatch "11" pingClient 0 =
      .error (.tooManyArguments (some ⟨.numberTooLarge 10 11, amountArg⟩)) := rfl

/-- Claim C2 (amended): in the current code `Command#dispatch` runs argument
validation first (any validation error surfaces unchanged), then the
permission check, then the throttle, and finally invokes every execution
handler with the resolved arguments; `dispatch` contains no disabled-command
check at all. -/
theorem C2_dispatch_order (c : Command) (s : String) (client : Client) (now : ℤ) :
    (∀ e, c.validate s = .error e → c.dispatch s client now = .error e) ∧
    (∀ m, c.validate s = .ok m → c.isAllowed client = false →
      c.dispatch s client now = .error (.permission "no permission to execute this command")) ∧
    (∀ m t, c.validate s = .ok m → c.isAllowed client = true → c.throttle = some t →
      t.isThrottled client = true →
      c.dispatch s client now = .error (.throttleError (t.timeTillNextCommand client now))) ∧
    (∀ m c1, c.validate s = .ok m → c.isAllowed client = true →
      c.handleThrottle client now = .ok c1 →
      c.dispatch s client now = .ok (c1, c1.execHandler.map (fun h => (h, m)))) := by
  refine ⟨?_, ?_, ?_, ?_⟩
  · intro e h
    simp [Command.dispatch, h]
  · intro m h hp
    simp [Command.dispatch, h, Command.dispatchCommand, Command.hasPermission, hp]
  · intro m t h hp ht hth
    simp [Command.dispatch, h, Command.dispatchCommand, Command.hasPermission, hp,
      Command.handleThrottle, ht, hth]
  · intro m c1 h hp hth
    simp [Command.dispatch, h, Command.dispatchCommand, Command.hasPermission, hp, hth]

/-- Witness for C2: a command whose permission predicate denies and whose
(empty) argument list validates is rejected with `PermissionError`. -/
theorem C2_dispatch_order_witness :
    c2CmdDenied.dispatch "" c2Client 0 =
      .error (.permission "no permission to execute this command") :=
  (C2_dispatch_order c2CmdDenied "" c2Client 0).2.1 [] rfl rfl

/-- Claim C2 counterexample: a command that is disabled and whose permission
predicate denies, dispatched on unparsable argument text, fails with the
`ParseError` — the disabled state is never consulted by `dispatch` and the
`PermissionError` does not take precedence. -/
theorem C2_parse_precedes_permission :
    c2Cmd.enabled = false ∧
    c2Cmd.isAllowed c2Client = false ∧
    c2Cmd.dispatch "abc" c2Client 0 = .error (.parse ⟨.notANumber "abc", c2Arg⟩) :=
  ⟨rfl, rfl, rfl⟩

/-- Claim C3 (code bug): an AND GroupArgument validates its children in
order against the progressively shrinking remainder and, on success,
returns the record of child results with the final remainder; but on a
child failure `validateAnd` *returns* the first failing child's error
instead of throwing it, so the enclosing `Command#validateArgs` crashes
with a `TypeError` when destructuring the result — the child's
`ParseError` is not propagated and the optional slot does not fall back
to its default. -/
theorem C3_andGroup_error_returned :
    Argument.validate c3Group2 "5 foo" =
      .ok (.obj [("n", Value.num 5), ("s", Value.str "foo")]) "" ∧
    Argument.validate c3Group "abc" = .ret (.parse ⟨.notANumber "abc", c3Child⟩) ∧
    c3Cmd.validateArgs "abc" = .error (.typeError "validate result is not iterable") :=
  ⟨rfl, rfl, rfl⟩

/-- Claim C4 (amended): with an attached throttle, dispatch fails with
`ThrottleError` (carrying the remaining-wait estimate) exactly when the
identity's bucket is already at or below zero *before* any deduction — in
which case nothing is deducted; otherwise one use's penalty is deducted and
the dispatch proceeds even if the bucket is now at or below zero. -/
theorem C4_throttle_check_before_deduction (c : Command) (t : Throttle) (client : Client)
    (now : ℤ) (h : c.throttle = some t) :
    (t.isThrottled client = true →
      c.handleThrottle client now = .error (.throttleError (t.timeTillNextCommand client now))) ∧
    (t.isThrottled client = false →
      c.handleThrottle client now = .ok { c with throttle := some (t.reducePoints client.uid now) }) := by
  constructor <;> intro hp <;> simp [Command.handleThrottle, h, hp, Throttle.throttle]

/-- Witness for C4: the single-point throttle is not yet throttled, so the
first `handleThrottle` deducts and succeeds. -/
theorem C4_witness :
    c4Cmd.handleThrottle c4Client 0 =
      .ok { c4Cmd with throttle := some (c4Throttle.reducePoints "c4-user" 0) } :=
  (C4_throttle_check_before_deduction c4Cmd c4Throttle c4Client 0 rfl).2 rfl


/-- Claim C4 counterexample: with `initialPoints = 1` and
`penaltyPerUse = 1`, the first dispatch deducts the bucket to exactly zero
(the identity is then throttled) and still succeeds, although the claim
demands a `ThrottleError` whenever the bucket is at or below zero after the
deduction. -/
theorem C4_no_error_at_zero :
    (c4Cmd.dispatch "" c4Client 0).isOk = true ∧
    c4Cmd.handleThrottle c4Client 0 =
      .ok { c4Cmd with throttle := some (c4Throttle.reducePoints "c4-user" 0) } ∧
    ((c4Throttle.reducePoints "c4-user" 0).find "c4-user").map ThrottleEntry.points = some 0 ∧
    (c4Throttle.reducePoints "c4-user" 0).isThrottled c4Client = true :=
  ⟨rfl, rfl, by decide, by decide⟩

/-- Claim C5 (confirmed, Scenario D): with `initialPoints = 3` and
`penaltyPerUse = 1`, the `throttle` use operation reports not-throttled
after the first and second use, throttled after the third use reduces the
points to 0, and a fourth immediate use through a command carrying this
throttle raises `ThrottleError` with the remaining wait estimate. -/
theorem C5_scenarioD :
    (c5Throttle.throttle c5Client 0).2 = false ∧
    (c5After1.throttle c5Client 0).2 = false ∧
    (c5After2.throttle c5Client 0).2 = true ∧
    c5After3.find "u" = some ⟨0, 1000⟩ ∧
    c5Cmd.dispatch "" c5Client 0 = .error (.throttleError 1000) :=
  ⟨by decide, by decide, by decide, by decide, by rfl⟩

/-- Errors thrown by the token/length/whitelist checks of a string-like
argument are always `ParseError`s. -/
theorem StringArgument.validateString_thrown (self : Argument) (o : StringOpts)
    (arg rest : String) :
    ∀ e, StringArgument.validateString self o arg rest = .thrown e → ∃ pe, e = .parse pe := by
  intro e h
  unfold StringArgument.validateString at h
  dsimp only at h
  split_ifs at h <;> injection h with h1 <;> exact ⟨_, h1.symm⟩

/-- Errors thrown by a number argument are always `ParseError`s. -/
theorem NumberArgument.validate_thrown (self : Argument) (o : NumberOpts) (s : String) :
    ∀ e, NumberArgument.validate self o s = .thrown e → ∃ pe, e = .parse pe := by
  intro e h
  unfold NumberArgument.validate at h
  split at h
  dsimp only at h
  split_ifs at h <;> injection h with h1 <;> exact ⟨_, h1.symm⟩

mutual

/-- Every error thrown (not returned) by `Argument#validate` is a
`ParseError`. -/
theorem Argument.validate_thrown_parse (a : Argument) (s : String) :
    ∀ e, Argument.validate a s = .thrown e → ∃ pe, e = .parse pe := by
  intro e h
  cases a with
  | string b o => exact StringArgument.validateString_thrown _ _ _ _ e h
  | rest b o => exact StringArgument.validateString_thrown _ _ _ _ e h
  | number b o => exact NumberArgument.validate_thrown _ _ _ e h
  | group b gt args =>
    cases gt with
    | or => exact GroupArgument.validateOr_thrown _ args s [] [] e h
    | and =>
      unfold Argument.validate at h
      split at h <;> simp at h

/-- Every error thrown by the OR-mode scan is a `ParseError`. -/
theorem GroupArgument.validateOr_thrown (g : Argument) (children : List Argument)
    (cur : String) (resolved : ArgMap) (errors : List JsError) :
    ∀ e, GroupArgument.validateOr g children cur resolved errors = .thrown e →
      ∃ pe, e = .parse pe := by
  intro e h
  cases children with
  | nil =>
    unfold GroupArgument.validateOr at h
    injection h with h1
    exact ⟨_, h1.symm⟩
  | cons a rest =>
    unfold GroupArgument.validateOr at h
    cases hv : Argument.validate a cur with
    | ok v r =>
      simp only [hv] at h
      simp at h
    | thrown e2 =>
      simp only [hv] at h
      exact GroupArgument.validateOr_thrown g rest cur resolved (errors ++ [e2]) e h
    | ret e2 =>
      simp only [hv] at h
      exact GroupArgument.validateOr_thrown g rest cur
        (setKey resolved a.getName .undefined) (errors ++ [.typeError "result 1 is undefined"]) e h

end

/-- The validation walk of a command never produces a
`TooManyArgumentsError` itself: that error arises only from leftover text
in `Command#validate`. -/
theorem Command.validateArgsLoop_no_tma (args : List Argument) :
    ∀ (cur : String) (res : ArgMap) (errs : List ParseErr) (pe : Option ParseErr),
      Command.validateArgsLoop args cur res errs ≠ .error (.tooManyArguments pe) := by
  induction args with
  | nil =>
    intro cur res errs pe h
    cases h
  | cons a rest ih =>
    intro cur res errs pe h
    unfold Command.validateArgsLoop at h
    cases hv : Argument.validate a cur with
    | ok v r =>
      simp only [hv] at h
      exact ih _ _ _ _ h
    | thrown e2 =>
      simp only [hv] at h
      cases e2 with
      | parse pe2 =>
        by_cases hop : a.isOptional = true
        · simp [hop] at h
          exact ih _ _ _ _ h
        · simp [hop] at h
      | tooManyArguments pe2 =>
        obtain ⟨pe3, hpe⟩ := Argument.validate_thrown_parse a cur _ hv
        cases hpe
      | permission m => simp at h
      | throttleError w => simp at h
      | commandNotFound m => simp at h
      | typeError m => simp at h
    | ret e2 =>
      simp only [hv] at h
      simp at h

/-- Claim C6 (confirmed): `Command#validate` raises `TooManyArgumentsError`
exactly when the argument walk completes with a non-empty (trimmed)
remainder, and the raised error carries the first recorded
optional-argument diagnostic `ParseError` (none when the diagnostics list
is empty); an empty remainder never raises it. -/
theorem C6_tooManyArguments_iff (c : Command) (s : String) :
    ((∃ pe, c.validate s = .error (.tooManyArguments pe)) ↔
      ∃ r, c.validateArgs s = .ok r ∧ 0 < r.remaining.length) ∧
    (∀ r, c.validateArgs s = .ok r → 0 < r.remaining.length →
      c.validate s = .error (.tooManyArguments r.errors.head?)) := by
  cases h : c.validateArgs s with
  | error e =>
    have hval : c.validate s = .error e := by
      unfold Command.validate
      rw [h]
    refine ⟨⟨?_, ?_⟩, ?_⟩
    · rintro ⟨pe, hpe⟩
      rw [hval] at hpe
      injection hpe with h1
      subst h1
      unfold Command.validateArgs at h
      exact absurd h (Command.validateArgsLoop_no_tma _ _ _ _ _)
    · rintro ⟨r, hr, _⟩
      exact absurd hr (by simp)
    · intro r hr
      exact absurd hr (by simp)
  | ok r0 =>
    by_cases hlen : 0 < r0.remaining.length
    · have hval : c.validate s = .error (.tooManyArguments r0.errors.head?) := by
        unfold Command.validate
        rw [h]
        simp [hlen]
      refine ⟨⟨?_, ?_⟩, ?_⟩
      · intro _
        exact ⟨r0, rfl, hlen⟩
      · intro _
        exact ⟨r0.errors.head?, hval⟩
      · intro r hr hlen2
        injection hr with h1
        subst h1
        exact hval
    · have hval : c.validate s = .ok r0.result := by
        unfold Command.validate
        rw [h]
        simp [hlen]
      refine ⟨⟨?_, ?_⟩, ?_⟩
      · rintro ⟨pe, hpe⟩
        rw [hval] at hpe
        exact absurd hpe (by simp)
      · rintro ⟨r, hr, hlen2⟩
        injection hr with h1
        subst h1
        exact absurd hlen2 hlen
      · intro r hr hlen2
        injection hr with h1
        subst h1
        exact absurd hlen2 hlen

/-- Witness for C6: a command without declared arguments rejects the
leftover input `"extra"` with `TooManyArgumentsError` and no diagnostic. -/
theorem C6_witness : c6Cmd.validate "extra" = .error (.tooManyArguments none) :=
  (C6_tooManyArguments_iff c6Cmd "extra").2 ⟨[], "extra", []⟩ rfl (by decide)

/-- Claim C7 (confirmed): when an optional argument fails with a thrown
`ParseError`, the validation walk does not abort: the resolved record gains
the argument's default value, the `ParseError` is appended to the
diagnostics list, and the next argument receives the unchanged remainder. -/
theorem C7_optional_failure_continues (a : Argument) (rest : List Argument) (cur : String)
    (res : ArgMap) (errs : List ParseErr) (pe : ParseErr)
    (h1 : Argument.validate a cur = .thrown (.parse pe)) (h2 : a.isOptional = true) :
    Command.validateArgsLoop (a :: rest) cur res errs =
      Command.validateArgsLoop rest cur (setKey res a.getName a.getDefault) (errs ++ [pe]) := by
  conv_lhs => unfold Command.validateArgsLoop
  simp [h1, h2]

/-- Witness for C7: the optional number argument rejects `"abc"`, records
its default 9 under its name, retains the diagnostic, and the walk
continues on the unchanged text. -/
theorem C7_witness :
    Command.validateArgsLoop [c7Arg] "abc" [] [] =
      Command.validateArgsLoop [] "abc" (setKey [] c7Arg.getName c7Arg.getDefault)
        ([] ++ [c7Err]) :=
  C7_optional_failure_continues c7Arg [] "abc" [] [] c7Err rfl rfl

/-- Claim C8 (amended): `CommandGroup#dispatch` splits off the first
space-delimited token; a non-empty token is resolved case-insensitively
against the children's names and aliases and that child's dispatch runs on
the remaining text (`"add 10"` routes to child `add` resolving
`amount = 10`); an unmatched non-empty token raises the not-found error;
an empty token always dispatches the group's own handler set with an empty
argument record — when the group has no handler of its own this simply
invokes nothing and succeeds, with no error raised. -/
theorem C8_group_dispatch :
    moneyGroup.dispatch "add 10" c8Client 0 =
      .ok (moneyGroup, [(1, [("amount", Value.num 10)])]) ∧
    moneyGroup.dispatch "ADD 10" c8Client 0 =
      .ok (moneyGroup, [(1, [("amount", Value.num 10)])]) ∧
    moneyGroup.dispatch "foo 1" c8Client 0 = .error (.commandNotFound "subcommand not found") ∧
    moneyGroupWithHandler.dispatch "" c8Client 0 = .ok (moneyGroupWithHandler, [(9, [])]) :=
  ⟨rfl, rfl, rfl, rfl⟩

/-- Claim C8 counterexample: the `money` group has no execution handler of
its own, yet dispatching the empty input does not raise
`SubCommandNotFoundError` — it succeeds, invoking no handler. -/
theorem C8_empty_token_no_error :
    moneyGroup.execHandler = [] ∧
    moneyGroup.dispatch "" c8Client 0 = .ok (moneyGroup, []) :=
  ⟨rfl, rfl⟩

/-- Claim C9 (amended): `Throttle#timeTillNextCommand` returns 0 exactly
for an identity with no recorded bucket; for any identity with a recorded
bucket — throttled or not — it returns the distance from now to that
bucket's scheduled restoration tick. -/
theorem C9_time_till_next (t : Throttle) (client : Client) (now : ℤ) :
    (t.find client.uid = none → t.timeTillNextCommand client now = 0) ∧
    (∀ e, t.find client.uid = some e → t.timeTillNextCommand client now = e.next - now) := by
  constructor
  · intro h
    unfold Throttle.timeTillNextCommand
    rw [h]
  · intro e h
    unfold Throttle.timeTillNextCommand
    rw [h]

/-- Witness for C9: one use at time 0 leaves a bucket with restoration
scheduled at 1000, so the wait estimate at time 0 is 1000 ms. -/
theorem C9_witness : c9After1.timeTillNextCommand c9Client 0 = 1000 :=
  (C9_time_till_next c9After1 c9Client 0).2 ⟨2, 1000⟩ (by decide)

/-- Claim C9 counterexample: after a single use the identity is *not*
throttled (2 of 3 points remain) yet `timeTillNextCommand` returns 1000,
not 0 as the claim states for non-throttled identities. -/
theorem C9_nonthrottled_nonzero :
    c9After1.isThrottled c9Client = false ∧
    c9After1.timeTillNextCommand c9Client 0 = 1000 :=
  ⟨by decide, by decide⟩

/-- Claim C10 (confirmed): `Argument#setName` overwrites the display name
before validating, so on every invalid name (empty, or containing a
character outside letters, digits and underscore) it throws while the
display name has already been replaced and the stored argument name is
unchanged — the operation is not atomic. -/
theorem C10_setName_not_atomic (a : Argument) (nm : String) (d : Option String)
    (h : nm.length < 1 ∨ ¬ (0 < nm.length ∧ nm.data.all nameCharOk)) :
    ((a.setName nm d).2).isSome = true ∧
    (a.setName nm d).1.getName = a.getName ∧
    (a.setName nm d).1.base.display = d.getD nm := by
  by_cases h1 : nm.length < 1
  · simp [Argument.setName, h1, Argument.getName, Argument.base_withBase]
  · have h2 : ¬ (0 < nm.length ∧ nm.data.all nameCharOk) := by
      rcases h with h | h
      · exact absurd h h1
      · exact h
    unfold Argument.setName
    dsimp only
    rw [if_neg h1, if_pos h2]
    simp [Argument.getName, Argument.base_withBase]

/-- Witness for C10: renaming to `"a b"` (which contains a space) fails,
yet the display name is already overwritten while the stored name stays. -/
theorem C10_witness :
    ((c10Arg.setName "a b" none).2).isSome = true ∧
    (c10Arg.setName "a b" none).1.getName = c10Arg.getName ∧
    (c10Arg.setName "a b" none).1.base.display = (none : Option String).getD "a b" :=
  C10_setName_not_atomic c10Arg "a b" none (Or.inr (by decide))
